import Mathlib

/-
  Verification development for the taf repository's update/validate engine.

  The CLI layer is embedded from src/taf/tools/repo/__init__.py (the `update`
  and `validate` click commands).  The protocol core (Trust Chain Validator,
  Update Session Orchestrator, Repository Layout Resolver) is not present in
  the source tree; those components are modelled from the specification, as
  marked on each definition.
-/

namespace Taf

/-- Embedded from the source: `UpdateType(expected_repo_type)` — the
expected-repo-type enumeration with values test, official and either. -/
inductive UpdateType where
  | test
  | official
  | either
  deriving Repr, DecidableEq

/-- Embedded from the source: constructing `UpdateType(s)` from a string;
`none` corresponds to Python raising `ValueError` for a non-member value. -/
def UpdateType.ofString : String → Option UpdateType
  | "test" => some UpdateType.test
  | "official" => some UpdateType.official
  | "either" => some UpdateType.either
  | _ => none

/-- Embedded from the source: the argument tuple of one call to
`update_repository(url, clients_auth_path, clients_library_dir,
default_branch, from_fs, UpdateType(expected_repo_type),
scripts_root_dir=scripts_root_dir)`. -/
structure UpdaterCall where
  url : String
  clients_auth_path : Option String
  clients_library_dir : Option String
  default_branch : String
  from_fs : Bool
  expected_repo_type : UpdateType
  scripts_root_dir : Option String
  deriving Repr, DecidableEq

/-- Outcome of the delegated `update_repository` call: normal return, or an
exception carrying a message. -/
inductive UpdaterResult where
  | success
  | failure (msg : String)
  deriving Repr, DecidableEq

/-- A line printed by the update command: the structured-output payloads
produced by `json.dumps` in the source.  `successPayload` stands for the
serialized object with `updateSuccessful` true; `errorPayload msg` for the
serialized object with `updateSuccessful` false and `error` set to `msg`. -/
inductive OutputLine where
  | successPayload
  | errorPayload (msg : String)
  deriving Repr, DecidableEq

/-- How one CLI invocation terminates: normal return (exit status 0) with the
lines it printed, a click `UsageError` (exit status 2), or an uncaught
exception propagating out of the command (non-zero exit status). -/
inductive CmdOutcome where
  | ok (stdout : List OutputLine)
  | usageError (msg : String)
  | raised (msg : String)
  deriving Repr, DecidableEq

/-- Process exit status corresponding to a command outcome: click exits 0 on
normal return, 2 on `UsageError`, 1 on an uncaught exception. -/
def CmdOutcome.exitCode : CmdOutcome → Nat
  | CmdOutcome.ok _ => 0
  | CmdOutcome.usageError _ => 2
  | CmdOutcome.raised _ => 1

/-- Embedded from the source: the raw command line of one `update`
invocation, before click option processing.  `none` for an option means it
was omitted on the command line. -/
structure RawUpdateArgs where
  url : String
  clients_auth_path : Option String
  clients_library_dir : Option String
  default_branch : Option String
  from_fs : Bool
  expected_repo_type : Option String
  scripts_root_dir : Option String
  profile : Bool
  format_output : Bool
  deriving Repr, DecidableEq

/-- Embedded from the source: `click.Choice` option processing — an omitted
option takes the default, a supplied value must be one of the listed
choices, anything else is rejected before the command body runs. -/
def clickChoice (valid : List String) (given : Option String) (dflt : String) :
    Option String :=
  match given with
  | none => some dflt
  | some v => if v ∈ valid then some v else none

/-- Embedded from the source: processing of
`--expected-repo-type`, declared as
`click.Choice(["test", "official", "either"])` with default `"either"`. -/
def expectedRepoTypeChoice (given : Option String) : Option String :=
  clickChoice ["test", "official", "either"] given "either"

/-- Embedded from the source: the argument tuple the `update` command body
passes to `update_repository`. -/
def updateCall (a : RawUpdateArgs) (t : UpdateType) : UpdaterCall :=
  { url := a.url
    clients_auth_path := a.clients_auth_path
    clients_library_dir := a.clients_library_dir
    default_branch := a.default_branch.getD "main"
    from_fs := a.from_fs
    expected_repo_type := t
    scripts_root_dir := a.scripts_root_dir }

/-- Embedded from the source: the body of the `update` command.  It first
raises `UsageError` when both `--clients-auth-path` and
`--clients-library-dir` are omitted; otherwise it calls `update_repository`
once and, depending on `--format-output`, either prints a structured payload
(swallowing any exception) or re-raises the exception.  The result pairs the
command outcome with the list of `update_repository` calls made. -/
def updateBody (a : RawUpdateArgs) (t : UpdateType)
    (updater : UpdaterCall → UpdaterResult) : CmdOutcome × List UpdaterCall :=
  if a.clients_auth_path = none ∧ a.clients_library_dir = none then
    (CmdOutcome.usageError
      "Must specify either authentication repository path or library directory!",
     [])
  else
    let call := updateCall a t
    match updater call with
    | UpdaterResult.success =>
        if a.format_output then
          (CmdOutcome.ok [OutputLine.successPayload], [call])
        else
          (CmdOutcome.ok [], [call])
    | UpdaterResult.failure m =>
        if a.format_output then
          (CmdOutcome.ok [OutputLine.errorPayload m], [call])
        else
          (CmdOutcome.raised m, [call])

/-- Embedded from the source: a full `update` invocation — click first
validates `--expected-repo-type` against its choice list, then the command
body runs, constructing `UpdateType(expected_repo_type)` and calling
`update_repository`. -/
def updateCLI (a : RawUpdateArgs) (updater : UpdaterCall → UpdaterResult) :
    CmdOutcome × List UpdaterCall :=
  match expectedRepoTypeChoice a.expected_repo_type with
  | none =>
      (CmdOutcome.usageError "Invalid value for expected-repo-type", [])
  | some s =>
      match UpdateType.ofString s with
      | none => (CmdOutcome.raised "ValueError", [])
      | some t => updateBody a t updater

/-- Embedded from the source: the argument tuple of one call to
`validate_repository(clients_auth_path, clients_library_dir,
default_branch, from_commit)`. -/
structure ValidateCall where
  clients_auth_path : String
  clients_library_dir : Option String
  default_branch : String
  from_commit : Option String
  deriving Repr, DecidableEq

/-- Embedded from the source: the body of the `validate` command — it calls
`validate_repository` exactly once with its arguments and returns. -/
def validateCLI (path : String) (lib : Option String)
    (branch : Option String) (fromCommit : Option String) : List ValidateCall :=
  [{ clients_auth_path := path
     clients_library_dir := lib
     default_branch := branch.getD "main"
     from_commit := fromCommit }]

/-- Modelled from the spec: the trusted state of one role between commits —
the previously trusted generation's authorized key identifiers, its signature
threshold, and the last trusted version number for the role (spec 3, 4.1,
4.3).  The Trust Chain Validator itself is not part of the source tree. -/
structure RoleState where
  authorizedKeys : List Nat
  threshold : Nat
  version : Nat
  deriving Repr, DecidableEq

/-- Modelled from the spec: one Metadata Generation bound to a commit of the
authentication repository (spec 3): a version counter, an expiration time,
the set of key identifiers whose signatures verify over the document's
canonical byte form, and the authorized content the generation declares for
its role (key list and threshold) that becomes trusted on promotion. -/
structure MetaGen where
  version : Nat
  expires : Nat
  goodSigs : List Nat
  newKeys : List Nat
  newThreshold : Nat
  deriving Repr, DecidableEq

/-- Modelled from the spec: the trust-chain failure kinds relevant to the
per-role check sequence of spec 4.3 (taxonomy of spec 7). -/
inductive ValError where
  | insufficientSignatures
  | rollbackDetected
  | metadataExpired
  deriving Repr, DecidableEq

/-- Modelled from the spec: the number of distinct keys, authorized by the
previously trusted generation, whose signatures verify over the document's
canonical byte form (spec 4.3 step 1). -/
def sigCount (trusted : RoleState) (g : MetaGen) : Nat :=
  (g.goodSigs.dedup.filter (fun k => trusted.authorizedKeys.contains k)).length

/-- Modelled from the spec: validation of one metadata generation for one
role against the previously trusted state, performing the check sequence of
spec 4.3 in order — signature check, version monotonicity, expiration —
with the first failure deciding the error; on success the generation is
promoted to the new trusted state. -/
def validateGen (trusted : RoleState) (now : Nat) (g : MetaGen) :
    Except ValError RoleState :=
  if sigCount trusted g < trusted.threshold then
    Except.error ValError.insufficientSignatures
  else if g.version ≤ trusted.version then
    Except.error ValError.rollbackDetected
  else if g.expires ≤ now then
    Except.error ValError.metadataExpired
  else
    Except.ok { authorizedKeys := g.newKeys
                threshold := g.newThreshold
                version := g.version }

/-- Modelled from the spec: the outcome of walking a commit chain through
the Trust Chain Validator (spec 4.3): either every commit was promoted to
trusted, or validation was rejected at the commit with the given index,
reporting the last trusted state reached before that commit. -/
inductive ChainResult where
  | trusted (final : RoleState)
  | rejected (err : ValError) (haltIndex : Nat) (lastTrusted : RoleState)
  deriving Repr, DecidableEq

/-- Modelled from the spec: the commit-chain walk, oldest to newest, with
`i` the index of the next commit; each commit carries its timestamp and its
metadata generation; the walk halts at the first rejected commit and later
commits are never evaluated (spec 4.3 state machine). -/
def walkChainAux (st : RoleState) (i : Nat) :
    List (Nat × MetaGen) → ChainResult
  | [] => ChainResult.trusted st
  | (now, g) :: rest =>
      match validateGen st now g with
      | Except.error e => ChainResult.rejected e i st
      | Except.ok st2 => walkChainAux st2 (i + 1) rest

/-- Modelled from the spec: the full chain walk from an initial trusted
state over the commits fetched for one session, oldest first. -/
def walkChain (st : RoleState) (commits : List (Nat × MetaGen)) : ChainResult :=
  walkChainAux st 0 commits

/-- Modelled from the spec: one commit of the authentication repository as
the orchestrator sees it — a commit identifier, the commit timestamp, and
its metadata generation (spec 4.6). -/
structure AuthCommit where
  id : Nat
  time : Nat
  gen : MetaGen
  deriving Repr, DecidableEq

/-- Modelled from the spec: the durable local state of one authentication
repository — the trusted pointer (last fully validated commit, if any) and
the trusted role state it anchors (spec 3, glossary). -/
structure DurableState where
  trustedPointer : Option Nat
  roleState : RoleState
  deriving Repr, DecidableEq

/-- Modelled from the spec: the reported outcome of one update/validate
session (spec 4.6): the accepted commit, or rejection with a trust-chain
reason, or rejection because some target repository failed validation. -/
inductive SessionOutcome where
  | accepted (commit : Option Nat)
  | rejectedChain (reason : ValError)
  | rejectedTargets
  deriving Repr, DecidableEq

/-- Modelled from the spec: whether the whole session succeeds — the full
metadata chain reaches trusted and every target repository validates
(spec 4.6 step 5). -/
def sessionSuccessful (d : DurableState) (commits : List AuthCommit)
    (targets : List Bool) : Bool :=
  (match walkChain d.roleState (commits.map (fun c => (c.time, c.gen))) with
   | ChainResult.trusted _ => true
   | ChainResult.rejected _ _ _ => false)
  && targets.all (fun b => b)

/-- Modelled from the spec: one end-to-end update session (spec 4.6):
walk the new commits through the Trust Chain Validator, then validate every
target repository (their delegated results given as `targets`); only when
both fully succeed is the durable trusted pointer advanced to the final
validated commit — otherwise durable state is returned unchanged. -/
def runSession (d : DurableState) (commits : List AuthCommit)
    (targets : List Bool) : SessionOutcome × DurableState :=
  match walkChain d.roleState (commits.map (fun c => (c.time, c.gen))) with
  | ChainResult.rejected e _ _ => (SessionOutcome.rejectedChain e, d)
  | ChainResult.trusted st =>
      if targets.all (fun b => b) then
        match commits.getLast? with
        | some c =>
            (SessionOutcome.accepted (some c.id),
             { trustedPointer := some c.id, roleState := st })
        | none => (SessionOutcome.accepted d.trustedPointer, d)
      else (SessionOutcome.rejectedTargets, d)

/-- Modelled from the spec: a validate-only run (spec 4.6 step 2, and the
source docstring of the `validate` command: it does not clone repositories,
fetch changes or merge commits) — the same chain and target validation as a
session, but durable state is returned unchanged in every branch. -/
def validateRun (d : DurableState) (commits : List AuthCommit)
    (targets : List Bool) : SessionOutcome × DurableState :=
  match walkChain d.roleState (commits.map (fun c => (c.time, c.gen))) with
  | ChainResult.rejected e _ _ => (SessionOutcome.rejectedChain e, d)
  | ChainResult.trusted _ =>
      if targets.all (fun b => b) then
        match commits.getLast? with
        | some c => (SessionOutcome.accepted (some c.id), d)
        | none => (SessionOutcome.accepted d.trustedPointer, d)
      else (SessionOutcome.rejectedTargets, d)

/-- Modelled from the spec: the library (root) directory derived from the
authentication repository's path when no override is given — the path two
levels up from the authentication repository's directory (spec 4.4).  Paths
are represented as lists of components. -/
def derivedLibraryDir (authPath : List String) : List String :=
  authPath.dropLast.dropLast

/-- Modelled from the spec: the namespace derived from the authentication
repository's path when no override is given — the name of the directory
immediately containing the authentication repository (spec 4.4). -/
def derivedNamespace (authPath : List String) : Option String :=
  authPath.dropLast.getLast?

/-- Modelled from the spec: the Repository Layout Resolver (spec 4.4) —
explicit `library-dir` and `namespace` overrides take precedence; the
derived defaults are used only when the override is absent. -/
def resolveLayout (authPath : List String) (libraryDir : Option (List String))
    (nsOverride : Option String) : List String × Option String :=
  (match libraryDir with
   | some l => l
   | none => derivedLibraryDir authPath,
   match nsOverride with
   | some n => some n
   | none => derivedNamespace authPath)

/-- Concrete update arguments with structured output requested. -/
def exArgsFO : RawUpdateArgs :=
  { url := "url1"
    clients_auth_path := some "authpath"
    clients_library_dir := none
    default_branch := none
    from_fs := false
    expected_repo_type := none
    scripts_root_dir := none
    profile := false
    format_output := true }

/-- Concrete update arguments with both path options omitted. -/
def exNoPathArgs : RawUpdateArgs :=
  { url := "url1"
    clients_auth_path := none
    clients_library_dir := none
    default_branch := none
    from_fs := false
    expected_repo_type := none
    scripts_root_dir := none
    profile := false
    format_output := false }

/-- Concrete update arguments with an invalid expected-repo-type value. -/
def exBadChoiceArgs : RawUpdateArgs :=
  { url := "url1"
    clients_auth_path := some "authpath"
    clients_library_dir := none
    default_branch := none
    from_fs := false
    expected_repo_type := some "bogus"
    scripts_root_dir := none
    profile := false
    format_output := false }

/-- A delegated updater that always rejects the update. -/
def exFailUpdater : UpdaterCall → UpdaterResult :=
  fun _ => UpdaterResult.failure "update rejected"

/-- A concrete initial trusted role state: three keys, threshold two. -/
def exSt : RoleState :=
  { authorizedKeys := [1, 2, 3], threshold := 2, version := 0 }

/-- A concrete generation that validates against `exSt`. -/
def gOk : MetaGen :=
  { version := 1, expires := 100, goodSigs := [1, 2],
    newKeys := [1, 2, 3], newThreshold := 2 }

/-- A concrete generation replaying version 1 (a rollback after `gOk`). -/
def gRollback : MetaGen :=
  { version := 1, expires := 100, goodSigs := [1, 2],
    newKeys := [1, 2, 3], newThreshold := 2 }

/-- A concrete generation signed only by an unauthorized key. -/
def gBadSig : MetaGen :=
  { version := 1, expires := 100, goodSigs := [9],
    newKeys := [1, 2, 3], newThreshold := 2 }

/-- A concrete durable state anchored at `exSt` with no trusted pointer. -/
def exDurable : DurableState :=
  { trustedPointer := none, roleState := exSt }

/-- A concrete authentication-repository commit carrying `gOk`. -/
def exOkCommit : AuthCommit :=
  { id := 10, time := 0, gen := gOk }

/-- A concrete authentication-repository commit carrying `gBadSig`. -/
def exBadCommit : AuthCommit :=
  { id := 5, time := 0, gen := gBadSig }

/-! Helper lemmas about the embedded operations. -/

theorem updateBody_calls (a : RawUpdateArgs) (t : UpdateType)
    (u : UpdaterCall → UpdaterResult) :
    (updateBody a t u).2 =
      if a.clients_auth_path = none ∧ a.clients_library_dir = none then []
      else [updateCall a t] := by
  unfold updateBody
  by_cases h : a.clients_auth_path = none ∧ a.clients_library_dir = none
  · simp [h]
  · simp only [h, if_neg h, if_false]
    cases u (updateCall a t) <;> cases a.format_output <;> simp

theorem updateCLI_calls (a : RawUpdateArgs) (u : UpdaterCall → UpdaterResult) :
    (updateCLI a u).2 =
      match expectedRepoTypeChoice a.expected_repo_type with
      | none => []
      | some s =>
          match UpdateType.ofString s with
          | none => []
          | some t =>
              if a.clients_auth_path = none ∧ a.clients_library_dir = none then []
              else [updateCall a t] := by
  unfold updateCLI
  cases hc : expectedRepoTypeChoice a.expected_repo_type with
  | none => rfl
  | some s =>
      cases ht : UpdateType.ofString s with
      | none => simp [ht]
      | some t => simp [ht, updateBody_calls]

theorem choice_ofString (given : Option String) (s : String)
    (h : expectedRepoTypeChoice given = some s) :
    ∃ t, UpdateType.ofString s = some t := by
  cases given with
  | none =>
      have h2 : (some "either" : Option String) = some s := h
      have hs : s = "either" := (Option.some.injEq _ _ ▸ h2).symm
      subst hs
      exact ⟨UpdateType.either, rfl⟩
  | some v =>
      have h2 : (if v ∈ (["test", "official", "either"] : List String)
          then some v else none) = some s := h
      by_cases hm : v ∈ (["test", "official", "either"] : List String)
      · rw [if_pos hm, Option.some.injEq] at h2
        subst h2
        simp only [List.mem_cons, List.mem_singleton, List.not_mem_nil,
          or_false] at hm
        rcases hm with rfl | rfl | rfl
        · exact ⟨UpdateType.test, rfl⟩
        · exact ⟨UpdateType.official, rfl⟩
        · exact ⟨UpdateType.either, rfl⟩
      · rw [if_neg hm] at h2
        exact absurd h2 (by simp)

theorem walkChainAux_append_trusted (xs : List (Nat × MetaGen))
    (st st2 : RoleState) (i : Nat) (ys : List (Nat × MetaGen))
    (h : walkChainAux st i xs = ChainResult.trusted st2) :
    walkChainAux st i (xs ++ ys) = walkChainAux st2 (i + xs.length) ys := by
  induction xs generalizing st i with
  | nil =>
      have h2 : ChainResult.trusted st = ChainResult.trusted st2 := h
      have hst : st = st2 := by
        cases h2
        rfl
      subst hst
      simp [walkChainAux]
  | cons p rest ih =>
      obtain ⟨now, g⟩ := p
      have hstep : walkChainAux st i ((now, g) :: rest) =
          match validateGen st now g with
          | Except.error e => ChainResult.rejected e i st
          | Except.ok stn => walkChainAux stn (i + 1) rest := rfl
      cases hv : validateGen st now g with
      | error e =>
          rw [hstep, hv] at h
          exact absurd h (by simp)
      | ok stNext =>
          rw [hstep, hv] at h
          have h2 : walkChainAux stNext (i + 1) rest = ChainResult.trusted st2 := h
          have hgoal : walkChainAux st i (((now, g) :: rest) ++ ys) =
              walkChainAux stNext (i + 1) (rest ++ ys) := by
            rw [List.cons_append]
            show (match validateGen st now g with
              | Except.error e => ChainResult.rejected e i st
              | Except.ok stn => walkChainAux stn (i + 1) (rest ++ ys)) = _
            rw [hv]
          rw [hgoal, ih stNext (i + 1) h2, List.length_cons]
          have harith : i + 1 + rest.length = i + (rest.length + 1) := by omega
          rw [harith]

theorem walkChain_take_trusted_length (st0 st : RoleState)
    (commits : List (Nat × MetaGen)) (i : Nat) (hi : i ≤ commits.length)
    (hpre : walkChain st0 (commits.take i) = ChainResult.trusted st) :
    walkChainAux st i (commits.drop i) = walkChain st0 commits := by
  unfold walkChain at hpre ⊢
  have hsplit : commits.take i ++ commits.drop i = commits :=
    List.take_append_drop i commits
  calc walkChainAux st i (commits.drop i)
      = walkChainAux st (0 + (commits.take i).length) (commits.drop i) := by
        rw [List.length_take, Nat.min_eq_left hi, Nat.zero_add]
    _ = walkChainAux st0 0 (commits.take i ++ commits.drop i) :=
        (walkChainAux_append_trusted (commits.take i) st0 st 0
          (commits.drop i) hpre).symm
    _ = walkChainAux st0 0 commits := by rw [hsplit]

theorem validateRun_snd (d : DurableState) (commits : List AuthCommit)
    (targets : List Bool) : (validateRun d commits targets).2 = d := by
  unfold validateRun
  cases walkChain d.roleState (commits.map (fun c => (c.time, c.gen))) with
  | trusted st =>
      by_cases ht : targets.all (fun b => b)
      · rw [if_pos ht]
        cases commits.getLast? <;> rfl
      · rw [if_neg ht]
  | rejected e j st => rfl

theorem runSession_rejected (d : DurableState) (commits : List AuthCommit)
    (ts : List Bool) (e : ValError) (j : Nat) (st2 : RoleState)
    (h : walkChain d.roleState (commits.map (fun c => (c.time, c.gen))) =
      ChainResult.rejected e j st2) :
    runSession d commits ts = (SessionOutcome.rejectedChain e, d) := by
  unfold runSession
  rw [h]

/-! Claim theorems. -/

/-- C1 (counterexample): with structured output requested and the underlying
update rejected, the command prints the error payload but terminates
normally — the exit status is 0, not non-zero as the claim states, because
the exception is swallowed after printing the payload. -/
theorem c1_counterexample :
    (updateCLI exArgsFO exFailUpdater).1 =
      CmdOutcome.ok [OutputLine.errorPayload "update rejected"] ∧
    (updateCLI exArgsFO exFailUpdater).1.exitCode = 0 := by
  constructor
  · rfl
  · rfl

/-- C1 (amended): when the update command is invoked in structured-output
mode and the underlying update is rejected, the command emits the
machine-readable payload with updateSuccessful false and the error message,
but exits with status zero (the exception is not re-raised); when the
update succeeds it also exits with status zero, emitting the success
payload. -/
theorem c1_format_output_behavior (a : RawUpdateArgs)
    (u : UpdaterCall → UpdaterResult) (s : String) (t : UpdateType)
    (hc : expectedRepoTypeChoice a.expected_repo_type = some s)
    (ht : UpdateType.ofString s = some t)
    (hv : ¬(a.clients_auth_path = none ∧ a.clients_library_dir = none))
    (hfo : a.format_output = true) :
    (∀ m, u (updateCall a t) = UpdaterResult.failure m →
      (updateCLI a u).1 = CmdOutcome.ok [OutputLine.errorPayload m] ∧
      (updateCLI a u).1.exitCode = 0) ∧
    (u (updateCall a t) = UpdaterResult.success →
      (updateCLI a u).1 = CmdOutcome.ok [OutputLine.successPayload] ∧
      (updateCLI a u).1.exitCode = 0) := by
  have hbody : updateCLI a u = updateBody a t u := by
    unfold updateCLI
    simp only [hc, ht]
  constructor
  · intro m hu
    have h1 : (updateCLI a u).1 = CmdOutcome.ok [OutputLine.errorPayload m] := by
      rw [hbody]
      unfold updateBody
      rw [if_neg hv]
      simp only [hu, hfo, if_true]
    exact ⟨h1, by rw [h1]; rfl⟩
  · intro hu
    have h1 : (updateCLI a u).1 = CmdOutcome.ok [OutputLine.successPayload] := by
      rw [hbody]
      unfold updateBody
      rw [if_neg hv]
      simp only [hu, hfo, if_true]
    exact ⟨h1, by rw [h1]; rfl⟩

/-- C1 (witness): the amended behavior at a concrete invocation — structured
output requested, updater rejects with a message, the payload is printed and
the exit status is 0. -/
theorem c1_witness :
    (updateCLI exArgsFO exFailUpdater).1 =
      CmdOutcome.ok [OutputLine.errorPayload "update rejected"] ∧
    (updateCLI exArgsFO exFailUpdater).1.exitCode = 0 :=
  (c1_format_output_behavior exArgsFO exFailUpdater "either" UpdateType.either
    rfl rfl (by decide) rfl).1 "update rejected" rfl

/-- C5: an update invocation that passes option validation calls
`update_repository` exactly once, with the given url; a validate invocation
calls `validate_repository` exactly once, with the given
clients-auth-path. -/
theorem c5_orchestrator_called_once
    (a : RawUpdateArgs) (u : UpdaterCall → UpdaterResult) (s : String)
    (t : UpdateType)
    (hc : expectedRepoTypeChoice a.expected_repo_type = some s)
    (ht : UpdateType.ofString s = some t)
    (hv : ¬(a.clients_auth_path = none ∧ a.clients_library_dir = none))
    (path : String) (lib branch fromCommit : Option String) :
    (updateCLI a u).2 = [updateCall a t] ∧
    (updateCall a t).url = a.url ∧
    (validateCLI path lib branch fromCommit).length = 1 ∧
    ∀ c ∈ validateCLI path lib branch fromCommit,
      c.clients_auth_path = path := by
  refine ⟨?_, rfl, rfl, ?_⟩
  · rw [updateCLI_calls]
    simp only [hc, ht]
    rw [if_neg hv]
  · intro c hcm
    simp only [validateCLI, List.mem_singleton] at hcm
    subst hcm
    rfl

/-- C5 (witness): concrete update and validate invocations each producing
exactly one orchestrator call with the expected argument. -/
theorem c5_witness :
    (updateCLI exArgsFO exFailUpdater).2 =
      [updateCall exArgsFO UpdateType.either] ∧
    (updateCall exArgsFO UpdateType.either).url = exArgsFO.url ∧
    (validateCLI "authpath" none none none).length = 1 ∧
    ∀ c ∈ validateCLI "authpath" none none none,
      c.clients_auth_path = "authpath" :=
  c5_orchestrator_called_once exArgsFO exFailUpdater "either" UpdateType.either
    rfl rfl (by decide) "authpath" none none none

/-- C6: the expected-repo-type option accepts exactly test, official and
either, defaults to either when omitted, rejects any other value before
`update_repository` is invoked, and forwards an accepted value to the
updater as the corresponding `UpdateType`. -/
theorem c6_expected_repo_type :
    (∀ s : String, (expectedRepoTypeChoice (some s)).isSome = true ↔
        (s = "test" ∨ s = "official" ∨ s = "either")) ∧
    expectedRepoTypeChoice none = some "either" ∧
    (∀ (a : RawUpdateArgs) (u : UpdaterCall → UpdaterResult),
        expectedRepoTypeChoice a.expected_repo_type = none →
        (updateCLI a u).2 = []) ∧
    (∀ (a : RawUpdateArgs) (u : UpdaterCall → UpdaterResult) (s : String)
        (t : UpdateType),
        expectedRepoTypeChoice a.expected_repo_type = some s →
        UpdateType.ofString s = some t →
        ∀ c ∈ (updateCLI a u).2, c.expected_repo_type = t) := by
  refine ⟨?_, rfl, ?_, ?_⟩
  · intro s
    constructor
    · intro h
      by_cases hm : s ∈ (["test", "official", "either"] : List String)
      · simpa using hm
      · exfalso
        have h2 : expectedRepoTypeChoice (some s) = none := by
          show (if s ∈ (["test", "official", "either"] : List String)
            then some s else none) = none
          rw [if_neg hm]
        rw [h2] at h
        simp at h
    · intro h
      have hm : s ∈ (["test", "official", "either"] : List String) := by
        simpa using h
      have h2 : expectedRepoTypeChoice (some s) = some s := by
        show (if s ∈ (["test", "official", "either"] : List String)
          then some s else none) = some s
        rw [if_pos hm]
      rw [h2]
      rfl
  · intro a u h
    rw [updateCLI_calls]
    simp only [h]
  · intro a u s t hc ht c hcm
    rw [updateCLI_calls] at hcm
    simp only [hc, ht] at hcm
    by_cases hb : a.clients_auth_path = none ∧ a.clients_library_dir = none
    · rw [if_pos hb] at hcm
      exact absurd hcm (List.not_mem_nil c)
    · rw [if_neg hb] at hcm
      simp only [List.mem_singleton] at hcm
      subst hcm
      rfl

/-- C6 (witness): at a concrete invocation with the invalid value bogus,
no `update_repository` call is made. -/
theorem c6_witness : (updateCLI exBadChoiceArgs exFailUpdater).2 = [] :=
  c6_expected_repo_type.2.2.1 exBadChoiceArgs exFailUpdater (by decide)

/-- C9: when both clients-auth-path and clients-library-dir are omitted the
update command never invokes `update_repository`, and (when the
expected-repo-type option itself passes click validation so the body runs)
it raises the `UsageError` before any other work. -/
theorem c9_missing_paths (a : RawUpdateArgs) (u : UpdaterCall → UpdaterResult)
    (hnone : a.clients_auth_path = none ∧ a.clients_library_dir = none) :
    (updateCLI a u).2 = [] ∧
    ∀ s, expectedRepoTypeChoice a.expected_repo_type = some s →
      (updateCLI a u).1 =
        CmdOutcome.usageError
          "Must specify either authentication repository path or library directory!" ∧
      (updateCLI a u).1.exitCode ≠ 0 := by
  constructor
  · rw [updateCLI_calls]
    cases hc : expectedRepoTypeChoice a.expected_repo_type with
    | none => rfl
    | some s =>
        obtain ⟨t, ht⟩ := choice_ofString _ _ hc
        simp only [ht]
        rw [if_pos hnone]
  · intro s hc
    obtain ⟨t, ht⟩ := choice_ofString _ _ hc
    have hcli : updateCLI a u = updateBody a t u := by
      unfold updateCLI
      simp only [hc, ht]
    have h1 : (updateCLI a u).1 =
        CmdOutcome.usageError
          "Must specify either authentication repository path or library directory!" := by
      rw [hcli]
      unfold updateBody
      rw [if_pos hnone]
    refine ⟨h1, ?_⟩
    rw [h1]
    decide

/-- C9 (witness): at a concrete invocation with both path options omitted,
the command raises the `UsageError` and makes no `update_repository`
call. -/
theorem c9_witness :
    (updateCLI exNoPathArgs exFailUpdater).2 = [] ∧
    (updateCLI exNoPathArgs exFailUpdater).1 =
      CmdOutcome.usageError
        "Must specify either authentication repository path or library directory!" :=
  ⟨(c9_missing_paths exNoPathArgs exFailUpdater ⟨rfl, rfl⟩).1,
   ((c9_missing_paths exNoPathArgs exFailUpdater ⟨rfl, rfl⟩).2 "either" rfl).1⟩

/-- C10: the profile and format-output flags never influence the arguments
passed to `update_repository` — two invocations differing only in those two
flags produce identical call traces. -/
theorem c10_flags_independent (a : RawUpdateArgs) (p1 p2 f1 f2 : Bool)
    (u : UpdaterCall → UpdaterResult) :
    (updateCLI { a with profile := p1, format_output := f1 } u).2 =
    (updateCLI { a with profile := p2, format_output := f2 } u).2 := by
  rw [updateCLI_calls, updateCLI_calls]
  simp only [updateCall]

/-- C2: the durable trusted pointer is advanced only when the whole session
succeeds — the metadata chain fully validated and every target repository
validated; on any failure the session leaves durable state exactly as it
was. -/
theorem c2_all_or_nothing (d : DurableState) (commits : List AuthCommit)
    (targets : List Bool) :
    ((runSession d commits targets).2 ≠ d →
      sessionSuccessful d commits targets = true) ∧
    (sessionSuccessful d commits targets = false →
      (runSession d commits targets).2 = d) := by
  unfold runSession sessionSuccessful
  cases hw : walkChain d.roleState (commits.map (fun c => (c.time, c.gen))) with
  | rejected e j st =>
      exact ⟨fun hne => absurd rfl hne, fun _ => rfl⟩
  | trusted st =>
      by_cases ht : targets.all (fun b => b) = true
      · constructor
        · intro _
          simp [ht]
        · intro hfalse
          rw [ht] at hfalse
          simp at hfalse
      · have ht2 : (targets.all fun b => b) = false := by
          cases hb : targets.all fun b => b
          · rfl
          · exact absurd hb ht
        constructor
        · intro hne
          exfalso
          apply hne
          simp [ht2]
        · intro _
          simp [ht2]

/-- C2 (witness): a concrete partially-failing session — the chain
validates but one target repository fails — leaves durable state exactly
as it was. -/
theorem c2_witness :
    sessionSuccessful exDurable [exOkCommit] [false] = false ∧
    (runSession exDurable [exOkCommit] [false]).2 = exDurable :=
  ⟨by decide, (c2_all_or_nothing exDurable [exOkCommit] [false]).2 (by decide)⟩

/-- C3: in the oldest-to-newest chain walk, a metadata generation whose
version is not strictly greater than the previously trusted version makes
validation halt at that commit with `RollbackDetected`; the session result
equals the result on the chain truncated right after that commit, so no
later commit is ever evaluated. -/
theorem c3_rollback_halts (st0 st : RoleState)
    (commits : List (Nat × MetaGen)) (i : Nat) (hi : i < commits.length)
    (hpre : walkChain st0 (commits.take i) = ChainResult.trusted st)
    (hsig : st.threshold ≤ sigCount st (commits.get ⟨i, hi⟩).2)
    (hver : (commits.get ⟨i, hi⟩).2.version ≤ st.version) :
    walkChain st0 commits =
      ChainResult.rejected ValError.rollbackDetected i st ∧
    walkChain st0 commits = walkChain st0 (commits.take (i + 1)) := by
  obtain ⟨now, g, hget⟩ : ∃ now g, commits.get ⟨i, hi⟩ = (now, g) :=
    ⟨(commits.get ⟨i, hi⟩).1, (commits.get ⟨i, hi⟩).2, rfl⟩
  rw [hget] at hsig hver
  have hle : i ≤ commits.length := Nat.le_of_lt hi
  have hfail : validateGen st now g =
      Except.error ValError.rollbackDetected := by
    unfold validateGen
    rw [if_neg (Nat.not_lt.mpr hsig), if_pos hver]
  have hchain : walkChainAux st i (commits.drop i) =
      ChainResult.rejected ValError.rollbackDetected i st := by
    have hdrop : commits.drop i = (now, g) :: commits.drop (i + 1) := by
      rw [← hget]
      exact List.drop_eq_getElem_cons hi
    rw [hdrop]
    show (match validateGen st now g with
      | Except.error e => ChainResult.rejected e i st
      | Except.ok stn => walkChainAux stn (i + 1) (commits.drop (i + 1))) = _
    rw [hfail]
  have hfull : walkChain st0 commits =
      ChainResult.rejected ValError.rollbackDetected i st := by
    rw [← walkChain_take_trusted_length st0 st commits i hle hpre]
    exact hchain
  refine ⟨hfull, ?_⟩
  have htake : commits.take (i + 1) = commits.take i ++ [(now, g)] := by
    rw [List.take_succ, List.getElem?_eq_getElem hi]
    rw [← hget]
    rfl
  have h2 : walkChain st0 (commits.take (i + 1)) =
      ChainResult.rejected ValError.rollbackDetected i st := by
    unfold walkChain
    rw [htake]
    rw [walkChainAux_append_trusted (commits.take i) st0 st 0 [(now, g)] hpre]
    rw [List.length_take, Nat.min_eq_left hle, Nat.zero_add]
    show (match validateGen st now g with
      | Except.error e => ChainResult.rejected e i st
      | Except.ok stn => walkChainAux stn (i + 1) []) = _
    rw [hfail]
  rw [hfull, h2]

/-- C3 (witness): a concrete two-commit chain whose second generation
replays version 1 — validation halts at index 1 with `RollbackDetected`,
and the result equals the walk of the chain truncated after that commit. -/
theorem c3_witness :
    walkChain exSt [(0, gOk), (0, gRollback)] =
      ChainResult.rejected ValError.rollbackDetected 1
        { authorizedKeys := [1, 2, 3], threshold := 2, version := 1 } ∧
    walkChain exSt [(0, gOk), (0, gRollback)] =
      walkChain exSt ([(0, gOk), (0, gRollback)].take 2) :=
  c3_rollback_halts exSt
    { authorizedKeys := [1, 2, 3], threshold := 2, version := 1 }
    [(0, gOk), (0, gRollback)] 1 (by decide) (by decide) (by decide) (by decide)

/-- C4: a metadata generation is accepted only if at least `threshold`
distinct keys authorized by the previously trusted generation have verifying
signatures; with fewer than `threshold` such keys, validation fails with the
insufficient-signature error and a session hitting that generation leaves
the durable trusted pointer unchanged. -/
theorem c4_threshold_enforced (st : RoleState) (now : Nat) (g : MetaGen) :
    (∀ st2, validateGen st now g = Except.ok st2 →
        st.threshold ≤ sigCount st g) ∧
    (sigCount st g < st.threshold →
      validateGen st now g = Except.error ValError.insufficientSignatures ∧
      ∀ (ptr : Option Nat) (cid : Nat) (rest : List AuthCommit)
        (ts : List Bool),
        (runSession { trustedPointer := ptr, roleState := st }
            ({ id := cid, time := now, gen := g } :: rest) ts).2 =
          { trustedPointer := ptr, roleState := st }) := by
  constructor
  · intro st2 hok
    by_cases hlt : sigCount st g < st.threshold
    · exfalso
      have herr : validateGen st now g =
          Except.error ValError.insufficientSignatures := by
        unfold validateGen
        rw [if_pos hlt]
      rw [herr] at hok
      exact absurd hok (by simp)
    · exact Nat.not_lt.mp hlt
  · intro hlt
    have herr : validateGen st now g =
        Except.error ValError.insufficientSignatures := by
      unfold validateGen
      rw [if_pos hlt]
    refine ⟨herr, ?_⟩
    intro ptr cid rest ts
    have hwalk : walkChain st
        ((now, g) :: rest.map (fun c => (c.time, c.gen))) =
        ChainResult.rejected ValError.insufficientSignatures 0 st := by
      show (match validateGen st now g with
        | Except.error e => ChainResult.rejected e 0 st
        | Except.ok stn =>
            walkChainAux stn (0 + 1)
              (rest.map (fun c : AuthCommit => (c.time, c.gen)))) = _
      rw [herr]
    have hrun := runSession_rejected
      { trustedPointer := ptr, roleState := st }
      ({ id := cid, time := now, gen := g } :: rest) ts
      ValError.insufficientSignatures 0 st hwalk
    rw [hrun]

/-- C4 (witness): a concrete generation signed only by an unauthorized key
fails with the insufficient-signature error and the durable state of a
session hitting it is unchanged. -/
theorem c4_witness :
    sigCount exSt gBadSig < exSt.threshold ∧
    validateGen exSt 0 gBadSig =
      Except.error ValError.insufficientSignatures ∧
    (runSession exDurable [exBadCommit] []).2 = exDurable :=
  ⟨by decide,
   ((c4_threshold_enforced exSt 0 gBadSig).2 (by decide)).1,
   ((c4_threshold_enforced exSt 0 gBadSig).2 (by decide)).2 none 5 [] []⟩

/-- C7: with no overrides, the layout resolver derives the library (root)
directory as the path two levels up from the authentication repository's
directory and the namespace as the name of the directory immediately
containing it; each explicit override takes precedence over the derived
value. -/
theorem c7_layout_resolution (root : List String) (nsName repoName : String)
    (lib : List String) (ov : String) :
    resolveLayout (root ++ [nsName, repoName]) none none =
      (root, some nsName) ∧
    resolveLayout (root ++ [nsName, repoName]) (some lib) none =
      (lib, some nsName) ∧
    resolveLayout (root ++ [nsName, repoName]) none (some ov) =
      (root, some ov) ∧
    resolveLayout (root ++ [nsName, repoName]) (some lib) (some ov) =
      (lib, some ov) := by
  have hdl : (root ++ [nsName, repoName]).dropLast = root ++ [nsName] := by
    have hassoc : root ++ [nsName, repoName] =
        (root ++ [nsName]) ++ [repoName] := by simp
    rw [hassoc, List.dropLast_concat]
  have hlib : derivedLibraryDir (root ++ [nsName, repoName]) = root := by
    unfold derivedLibraryDir
    rw [hdl, List.dropLast_concat]
  have hns : derivedNamespace (root ++ [nsName, repoName]) = some nsName := by
    unfold derivedNamespace
    rw [hdl]
    exact List.getLast?_concat root
  refine ⟨?_, ?_, ?_, ?_⟩ <;> unfold resolveLayout <;> simp [hlib, hns]

/-- C8: re-running validation against an already-fully-validated commit
range produces the same accepted commit, and a validate run performs no
state mutation. -/
theorem c8_validate_idempotent (d : DurableState) (commits : List AuthCommit)
    (targets : List Bool) (c : Option Nat)
    (h : (validateRun d commits targets).1 = SessionOutcome.accepted c) :
    (validateRun d commits targets).2 = d ∧
    validateRun (validateRun d commits targets).2 commits targets =
      (SessionOutcome.accepted c, d) := by
  have hsnd := validateRun_snd d commits targets
  refine ⟨hsnd, ?_⟩
  rw [hsnd]
  calc validateRun d commits targets
      = ((validateRun d commits targets).1,
         (validateRun d commits targets).2) := rfl
    _ = (SessionOutcome.accepted c, d) := by rw [h, hsnd]

/-- C8 (witness): a concrete fully-validated run — re-running it yields the
same accepted commit, with durable state untouched both times. -/
theorem c8_witness :
    (validateRun exDurable [exOkCommit] [true]).2 = exDurable ∧
    validateRun (validateRun exDurable [exOkCommit] [true]).2
        [exOkCommit] [true] =
      (SessionOutcome.accepted (some 10), exDurable) :=
  c8_validate_idempotent exDurable [exOkCommit] [true] (some 10) (by decide)

end Taf
